import Mathlib

/-!
# Verification of the lighthouse gossip-validation and aggregation core

Shallow embedding of:

* `beacon_node/beacon_chain/src/attestation_aggregator.rs`
  (`AttestationAggregator::process_free_attestation`,
   `AttestationAggregator::get_attestations_for_state`, `aggregate_attestation`);
* `beacon_node/beacon_chain/src/blob_verification.rs`
  (`validate_blob_sidecar_for_gossip`, `verify_data_availability`,
   `BlockWrapper`, `AvailableBlock`, `VerifiedBlobs`, `into_available_block`);
* `beacon_node/beacon_chain/src/kzg_utils.rs` (`validate_blobs`).

Machine integers (`u64`, `usize`) are modelled as `Nat`: none of the embedded
code performs arithmetic that can overflow (the only arithmetic is
`epoch * slots_per_epoch` and list indexing).  Opaque cryptographic objects
(BLS signatures, public keys, hashes, KZG objects) are modelled as `Nat`
identifiers, with the external crypto operations supplied as explicit function
parameters.  Fallible Rust code returns `Except`/`Option`; a Rust `panic!` /
`unwrap` on `None` / `todo!` is modelled by a dedicated `panicked` constructor
of the result type.
-/

namespace Lighthouse

/-! ## Primitive / external types

`Signature`, `PublicKey`, `Hash256` are opaque values of external crates;
we model them as bare naturals. -/

abbrev Signature : Type := Nat
abbrev PublicKey : Type := Nat
abbrev Hash256 : Type := Nat

/-! ## Bitfield (`boolean-bitfield` crate)

`Bitfield::new()` is the empty bitfield; `set i v` grows the field with
`false` padding so that index `i` exists, then writes `v`; `get i` is a
bounds-checked read (the aggregator uses `.get(i).unwrap_or(false)`). -/

abbrev Bitfield : Type := List Bool

def Bitfield.new : Bitfield := []

def Bitfield.set (b : Bitfield) (i : Nat) (v : Bool) : Bitfield :=
  List.set (b ++ List.replicate (i + 1 - b.length) false) i v

def Bitfield.get (b : Bitfield) (i : Nat) : Option Bool :=
  List.get? b i

/-! ## Attestation data model (`types` crate, consumed by the aggregator)

The aggregator reads `data.slot`, `data.shard`, clones `data`, and keys its
store by `data.signable_message(custody_bit)`.  All remaining fields of the
phase-0 `AttestationData` (roots, justified epoch, ...) are collapsed into
one opaque `rest` component; they are never inspected by the embedded code. -/

structure AttestationData where
  slot : Nat
  shard : Nat
  rest : Nat
deriving DecidableEq, Repr

/-- Modelled from the spec: the signable message is the *canonical*
serialization of the `AttestationData` plus the custody-bit flag (the
serializer itself lives in the external `types`/`ssz` crates).  A canonical
(injective) serialization is modelled by the pair itself. -/
def AttestationData.signable_message (d : AttestationData) (custody_bit : Bool) :
    AttestationData × Bool :=
  (d, custody_bit)

abbrev SignableMessage : Type := AttestationData × Bool

/-- `AggregateSignature` (external `bls` crate): `new()` starts empty and
`add` folds one more signature in.  We model it by the list of folded
signatures, in fold order. -/
abbrev AggregateSignature : Type := List Signature

def AggregateSignature.new : AggregateSignature := []

def AggregateSignature.add (a : AggregateSignature) (s : Signature) : AggregateSignature :=
  a ++ [s]

structure Attestation where
  data : AttestationData
  aggregation_bitfield : Bitfield
  custody_bitfield : Bitfield
  aggregate_signature : AggregateSignature
deriving DecidableEq, Repr

/-- One record of `state.validator_registry`; the aggregator only reads its
`pubkey`. -/
structure Validator where
  pubkey : PublicKey
deriving DecidableEq, Repr

/-- The variants of `BeaconStateError` distinguished by
`process_free_attestation`; every other variant is collapsed into `Other`
(the code forwards those with `Err(e) => return Err(e)`). -/
inductive BeaconStateError where
  | EpochCacheUninitialized
  | EpochOutOfBounds
  | ShardOutOfBounds
  | Other (code : Nat)
deriving DecidableEq, Repr

/-- `ChainSpec`: the embedded code reads only `domain_attestation` from it
(the spec value handed to `fork.get_domain`). -/
structure ChainSpec where
  domain_attestation : Nat
deriving DecidableEq, Repr

/-- The slice of `BeaconState` consumed by the aggregator.

* `attestation_duties i` models
  `state.attestation_slot_and_shard_for_validator(i, spec)` — the committee
  cache resolution `(slot, shard, committee_index)` for validator `i` (an
  external collaborator of this core; the `spec` argument is pre-applied).
* `validator_registry` is the registry vector; the aggregator reads
  `registry.get(index)`.
* `current_epoch` models `state.current_epoch(spec)` and `fork_get_domain`
  models `state.fork.get_domain(epoch, domain)` (external `types` crate). -/
structure BeaconState where
  attestation_duties : Nat → Except BeaconStateError (Option (Nat × Nat × Nat))
  validator_registry : List Validator
  current_epoch : Nat
  fork_get_domain : Nat → Nat → Nat
  latest_attestations : List Attestation

structure FreeAttestation where
  validator_index : Nat
  data : AttestationData
  signature : Signature
deriving DecidableEq, Repr

/-- BLS signature verification,
`signature.verify(message, domain, pubkey)` (external `bls` crate), passed in
as an explicit function. -/
structure BlsApi where
  verify : Signature → SignableMessage → Nat → PublicKey → Bool

/-! ## Attestation aggregator (`attestation_aggregator.rs`) -/

def PHASE_0_CUSTODY_BIT : Bool := false

inductive Message where
  | Aggregated
  | AggregationNotRequired
  | NewAttestationCreated
  | BadValidatorIndex
  | BadSignature
  | BadSlot
  | BadShard
  | TooOld
deriving DecidableEq, Repr

structure Outcome where
  valid : Bool
  message : Message
deriving DecidableEq, Repr

/-- The aggregator's store, `HashMap<Vec<u8>, Attestation>` keyed by the
signable message, modelled as an association list with replace-on-insert. -/
abbrev Store : Type := List (SignableMessage × Attestation)

def Store.get (s : Store) (k : SignableMessage) : Option Attestation :=
  (s.find? (fun p => p.1 = k)).map Prod.snd

def Store.insert (s : Store) (k : SignableMessage) (a : Attestation) : Store :=
  match s with
  | [] => [(k, a)]
  | (k', a') :: rest =>
      if k' = k then (k, a) :: rest else (k', a') :: Store.insert rest k a

/-- Result of `process_free_attestation`: Rust's
`Result<Outcome, BeaconStateError>` plus the `panic!` taken on
`EpochCacheUninitialized`. -/
inductive ProcessResult where
  | panicked
  | error (e : BeaconStateError)
  | ok (o : Outcome)
deriving DecidableEq, Repr

/-- `aggregate_attestation` (file-private helper, lines 203–227): returns
`None` when the committee bit is already set, otherwise the attestation with
the bit set and the signature folded into the aggregate. -/
def aggregate_attestation (existing_attestation : Attestation) (signature : Signature)
    (committee_index : Nat) : Option Attestation :=
  let already_signed :=
    (existing_attestation.aggregation_bitfield.get committee_index).getD false
  if already_signed then
    none
  else
    some { existing_attestation with
      aggregation_bitfield :=
        existing_attestation.aggregation_bitfield.set committee_index true
      aggregate_signature :=
        existing_attestation.aggregate_signature.add signature }

/-- `AttestationAggregator::process_free_attestation` (lines 85–167).  The
mutable `self.store` is passed and returned explicitly; the result pairs the
Rust return value with the post-state of the store. -/
def process_free_attestation (bls : BlsApi) (store : Store)
    (cached_state : BeaconState) (free_attestation : FreeAttestation)
    (spec : ChainSpec) : ProcessResult × Store :=
  match cached_state.attestation_duties free_attestation.validator_index with
  | .error .EpochCacheUninitialized => (.panicked, store)
  | .error .EpochOutOfBounds => (.ok ⟨false, .TooOld⟩, store)
  | .error .ShardOutOfBounds => (.ok ⟨false, .BadShard⟩, store)
  | .error e => (.error e, store)
  | .ok none => (.ok ⟨false, .BadValidatorIndex⟩, store)
  | .ok (some attestation_duties) =>
    let (slot, shard, committee_index) := attestation_duties
    if free_attestation.data.slot ≠ slot then
      (.ok ⟨false, .BadSlot⟩, store)
    else if free_attestation.data.shard ≠ shard then
      (.ok ⟨false, .BadShard⟩, store)
    else
      let signable_message := free_attestation.data.signable_message PHASE_0_CUSTODY_BIT
      match cached_state.validator_registry.get? free_attestation.validator_index with
      | none => (.ok ⟨false, .BadValidatorIndex⟩, store)
      | some validator_record =>
        if ¬ bls.verify free_attestation.signature signable_message
            (cached_state.fork_get_domain cached_state.current_epoch
              spec.domain_attestation)
            validator_record.pubkey then
          (.ok ⟨false, .BadSignature⟩, store)
        else
          match store.get signable_message with
          | some existing_attestation =>
            match aggregate_attestation existing_attestation
                free_attestation.signature committee_index with
            | some updated_attestation =>
                (.ok ⟨true, .Aggregated⟩,
                  store.insert signable_message updated_attestation)
            | none => (.ok ⟨true, .AggregationNotRequired⟩, store)
          | none =>
            let aggregate_signature :=
              AggregateSignature.new.add free_attestation.signature
            let aggregation_bitfield := Bitfield.new.set committee_index true
            let new_attestation : Attestation :=
              { data := free_attestation.data
                aggregation_bitfield := aggregation_bitfield
                custody_bitfield := Bitfield.new
                aggregate_signature := aggregate_signature }
            (.ok ⟨true, .NewAttestationCreated⟩,
              store.insert signable_message new_attestation)

/-- `AttestationAggregator::get_attestations_for_state` (lines 173–196).
`vaws` is the external `state_processing::validate_attestation_without_signature`
predicate (`is_ok` of its result); the function takes `&self` and returns a
list of clones, leaving the store untouched. -/
def get_attestations_for_state
    (vaws : BeaconState → Attestation → ChainSpec → Bool)
    (store : Store) (state : BeaconState) (spec : ChainSpec) : List Attestation :=
  let known_attestation_data : List AttestationData :=
    state.latest_attestations.map (fun attestation => attestation.data)
  (store.map Prod.snd).filterMap (fun attestation =>
    if vaws state attestation spec ∧
        ¬ known_attestation_data.contains attestation.data then
      some attestation
    else
      none)

/-! ## Blob sidecar data model (`types` crate, consumed by `blob_verification.rs`) -/

/-- Opaque blob payload (`Blob<T>`); `blob.as_ref()` is the identity in the
model. -/
abbrev Blob : Type := Nat

abbrev KzgCommitment : Type := Nat
abbrev KzgProof : Type := Nat

/-- Opaque `SignedBeaconBlock`: no field of it is consumed by the embedded
code. -/
abbrev SignedBeaconBlock : Type := Nat

structure BlobSidecar where
  slot : Nat
  index : Nat
  block_root : Hash256
  block_parent_root : Hash256
  proposer_index : Nat
  kzg_commitment : KzgCommitment
  kzg_proof : KzgProof
  blob : Blob
deriving DecidableEq, Repr

structure SignedBlobSidecar where
  message : BlobSidecar
  signature : Signature
deriving DecidableEq, Repr

/-- The variants of `BeaconChainError` reachable from the embedded code. -/
inductive BeaconChainError where
  | UnableToReadSlot
  | ValidatorPubkeyCacheLockTimeout
  | BeaconStateError (e : BeaconStateError)
deriving DecidableEq, Repr

/-- `BlobError` (`blob_verification.rs` lines 18–115).  `kzg::Error` and
`BlobCacheError` payloads are opaque codes. -/
inductive BlobError where
  | FutureSlot (message_slot latest_permissible_slot : Nat)
  | SlotMismatch (blob_slot block_slot : Nat)
  | KzgCommitmentMissing
  | TransactionsMissing
  | TransactionCommitmentMismatch
  | TrustedSetupNotInitialized
  | InvalidKzgProof
  | KzgError (e : Nat)
  | BeaconChainError (e : BeaconChainError)
  | UnavailableBlobs
  | InconsistentFork
  | UnknownHeadBlock (beacon_block_root : Hash256)
  | InvalidSubnet (expected received : Nat)
  | PastFinalizedSlot (blob_slot finalized_slot : Nat)
  | ProposerIndexMismatch (sidecar local_index : Nat)
  | ProposerSignatureInvalid
  | RepeatSidecar (proposer slot blob_index : Nat)
  | UnknownValidator (v : Nat)
  | BlobCacheError (e : Nat)
deriving DecidableEq, Repr

structure GossipVerifiedBlobSidecar where
  all_blobs_available : Bool
  block_root : Hash256
deriving DecidableEq, Repr

/-- `Epoch::start_slot(slots_per_epoch)` (external `types` crate): the first
slot of the epoch. -/
def Epoch.start_slot (epoch slots_per_epoch : Nat) : Nat :=
  epoch * slots_per_epoch

/-- The KZG context (external `kzg` crate over a loaded trusted setup);
`verify_blob_kzg_proof_batch` is supplied as a function, errors are opaque
codes. -/
structure Kzg where
  verify_blob_kzg_proof_batch :
    List Blob → List KzgCommitment → List KzgProof → Except Nat Bool

/-- A blob-carrying execution transaction: the embedded code only ever reads
the ordered KZG commitments it embeds. -/
structure Transaction where
  blob_versioned_commitments : List KzgCommitment
deriving DecidableEq, Repr

/-- The slice of `BeaconChain<T>` consumed by `blob_verification.rs`, with
the external collaborators as explicit functions:

* `slot_clock_now_with_future_tolerance` models
  `chain.slot_clock.now_with_future_tolerance(MAXIMUM_GOSSIP_CLOCK_DISPARITY)`;
* `finalized_checkpoint_epoch` models `chain.head().finalized_checkpoint().epoch`
  and `slots_per_epoch` models `T::EthSpec::slots_per_epoch()`;
* `beacon_proposer_cache_get_slot` models
  `chain.beacon_proposer_cache.lock().get_slot(shuffling_root, slot)`,
  returning `(proposer.index, proposer.fork)` (the fork is an opaque code);
* `head_state_get_beacon_proposer_index` / `head_state_fork` model the
  fall-back on the canonical head snapshot state (`spec` pre-applied);
* `validator_pubkey_cache = none` models a
  `try_read_for(VALIDATOR_PUBKEY_CACHE_LOCK_TIMEOUT)` lock timeout;
* `sidecar_verify_signature` models
  `signed_blob_sidecar.verify_signature(None, pubkey, fork,
  genesis_validators_root, spec)` (external BLS);
* `data_availability_checker` models
  `chain.data_availability_checker: Option<_>`, whose `put_blob_temp` returns
  whether all blobs for the block are now available;
* `fork_choice_get_block` / `early_attester_cache_get_proto_block` model the
  block-known lookups (the `ProtoBlock` payload is opaque);
* `kzg` models `chain.kzg: Option<Kzg>`. -/
structure BlobChain where
  slot_clock_now_with_future_tolerance : Option Nat
  finalized_checkpoint_epoch : Nat
  slots_per_epoch : Nat
  beacon_proposer_cache_get_slot : Hash256 → Nat → Option (Nat × Nat)
  head_state_get_beacon_proposer_index : Nat → Except BeaconStateError Nat
  head_state_fork : Nat
  validator_pubkey_cache : Option (Nat → Option PublicKey)
  genesis_validators_root : Nat
  sidecar_verify_signature : SignedBlobSidecar → PublicKey → Nat → Nat → Bool
  data_availability_checker : Option (SignedBlobSidecar → Except Nat Bool)
  fork_choice_get_block : Hash256 → Option Nat
  early_attester_cache_get_proto_block : Hash256 → Option Nat
  kzg : Option Kzg

/-- Result of `validate_blob_sidecar_for_gossip`: the Rust
`Result<GossipVerifiedBlobSidecar, BlobError>` plus the panic taken by
`chain.data_availability_checker.as_ref().unwrap()` when the checker is
`None`. -/
inductive GossipResult where
  | panicked
  | error (e : BlobError)
  | ok (r : GossipVerifiedBlobSidecar)
deriving DecidableEq, Repr

/-- `validate_blob_sidecar_for_gossip` (`blob_verification.rs` lines
136–261).  The second component of the result instruments the one observable
effect: it is `true` exactly when the sidecar was submitted to the
availability cache (`da_checker.put_blob_temp(...)` was invoked). -/
def validate_blob_sidecar_for_gossip (chain : BlobChain)
    (signed_blob_sidecar : SignedBlobSidecar) (subnet : Nat) :
    GossipResult × Bool :=
  let blob_slot := signed_blob_sidecar.message.slot
  let blob_index := signed_blob_sidecar.message.index
  let block_root := signed_blob_sidecar.message.block_root
  if blob_index ≠ subnet then
    (.error (.InvalidSubnet blob_index subnet), false)
  else
    match chain.slot_clock_now_with_future_tolerance with
    | none => (.error (.BeaconChainError .UnableToReadSlot), false)
    | some latest_permissible_slot =>
      if blob_slot > latest_permissible_slot then
        (.error (.FutureSlot blob_slot latest_permissible_slot), false)
      else
        let latest_finalized_slot :=
          Epoch.start_slot chain.finalized_checkpoint_epoch chain.slots_per_epoch
        if blob_slot ≤ latest_finalized_slot then
          (.error (.PastFinalizedSlot blob_slot latest_finalized_slot), false)
        else
          let proposer_shuffling_root := signed_blob_sidecar.message.block_parent_root
          match (match chain.beacon_proposer_cache_get_slot proposer_shuffling_root
                    blob_slot with
                 | some proposer => Except.ok proposer
                 | none =>
                   (chain.head_state_get_beacon_proposer_index blob_slot).map
                     (fun index => (index, chain.head_state_fork))) with
          | .error e => (.error (.BeaconChainError (.BeaconStateError e)), false)
          | .ok (proposer_index, fork) =>
            let blob_proposer_index := signed_blob_sidecar.message.proposer_index
            if proposer_index ≠ blob_proposer_index then
              (.error (.ProposerIndexMismatch blob_proposer_index proposer_index), false)
            else
              match chain.validator_pubkey_cache with
              | none =>
                  (.error (.BeaconChainError .ValidatorPubkeyCacheLockTimeout), false)
              | some pubkey_cache =>
                match pubkey_cache proposer_index with
                | none => (.error (.UnknownValidator proposer_index), false)
                | some pubkey =>
                  let signature_is_valid :=
                    chain.sidecar_verify_signature signed_blob_sidecar pubkey fork
                      chain.genesis_validators_root
                  if ¬ signature_is_valid then
                    (.error .ProposerSignatureInvalid, false)
                  else
                    match chain.data_availability_checker with
                    | none => (.panicked, false)
                    | some da_checker =>
                      match da_checker signed_blob_sidecar with
                      | .error e => (.error (.BlobCacheError e), true)
                      | .ok all_blobs_available =>
                        let block_opt :=
                          (chain.fork_choice_get_block block_root).orElse
                            (fun _ =>
                              chain.early_attester_cache_get_proto_block block_root)
                        if block_opt.isNone then
                          (.error (.UnknownHeadBlock block_root), true)
                        else
                          (.ok ⟨all_blobs_available, block_root⟩, true)

/-- Modelled from the spec: `state_processing::...::eip4844::
verify_kzg_commitments_against_transactions` is not under `src/`; per §4.4
it succeeds exactly when the ordered commitments embedded in the
blob-carrying transactions equal `kzg_commitments` exactly (count and
value). -/
def verify_kzg_commitments_against_transactions (transactions : List Transaction)
    (kzg_commitments : List KzgCommitment) : Except Unit Unit :=
  if (transactions.map (fun tx => tx.blob_versioned_commitments)).flatten =
      kzg_commitments then
    Except.ok ()
  else
    Except.error ()

/-- `kzg_utils::validate_blobs` (`kzg_utils.rs` lines 15–27): batch
verification of blob/commitment/proof triplets (`blob.as_ref()` is the
identity in the model). -/
def validate_blobs (kzg : Kzg) (expected_kzg_commitments : List KzgCommitment)
    (blobs : List Blob) (kzg_proofs : List KzgProof) : Except Nat Bool :=
  kzg.verify_blob_kzg_proof_batch blobs expected_kzg_commitments kzg_proofs

/-- Result of `verify_data_availability`: the Rust `Result<(), BlobError>`
plus the unconditional `todo!(...)` panic at the KZG-verification step. -/
inductive DAResult where
  | panicked
  | error (e : BlobError)
  | ok
deriving DecidableEq, Repr

/-- `verify_data_availability` (`blob_verification.rs` lines 263–296).  After
the transaction cross-check and the trusted-setup check, the body is
`todo!("use kzg_utils::validate_blobs once the function is updated")`: the
batch KZG verification is commented out, so control that reaches it
panics. -/
def verify_data_availability (chain : BlobChain) (_blob_sidecar : List BlobSidecar)
    (kzg_commitments : List KzgCommitment) (transactions : List Transaction)
    (_block_slot : Nat) (_block_root : Hash256) : DAResult :=
  match verify_kzg_commitments_against_transactions transactions kzg_commitments with
  | .error _ => .error .TransactionCommitmentMismatch
  | .ok _ =>
    match chain.kzg with
    | none => .error .TrustedSetupNotInitialized
    | some _ => .panicked

/-! ## Block availability state machine (`blob_verification.rs` lines 298–525) -/

inductive VerifiedBlobs where
  | Available (blobs : List BlobSidecar)
  | NotRequired
  | EmptyBlobs
  | PreEip4844
deriving DecidableEq, Repr

structure AvailableBlock where
  block : SignedBeaconBlock
  blobs : VerifiedBlobs
deriving DecidableEq, Repr

inductive BlockWrapper where
  | Available (b : AvailableBlock)
  | AvailabilityPending (b : SignedBeaconBlock)
deriving DecidableEq, Repr

/-- The inherent `BlockWrapper::into_available_block` (lines 386–393). -/
def BlockWrapper.into_available_block : BlockWrapper → Option AvailableBlock
  | .AvailabilityPending _ => none
  | .Available block => some block

/-- The trait impl `IntoAvailableBlock for BlockWrapper` (lines 312–320): the
body is `todo!()`, which panics unconditionally on every input; `none`
models the panic (a `some` would model a normal `Result` return). -/
def IntoAvailableBlock.into_available_block (_self : BlockWrapper)
    (_block_root : Hash256) (_chain : BlobChain) :
    Option (Except BlobError AvailableBlock) :=
  none

/-- Modelled from the spec: order-independent BLS aggregation — the aggregate
signature "independently verifies against" a public key when a signature
folded into it verifies individually against that key for the signable
message (the pairing check itself lives in the external `bls` crate). -/
def AggregateSignature.verifies_against (bls : BlsApi) (agg : AggregateSignature)
    (msg : SignableMessage) (domain : Nat) (pk : PublicKey) : Bool :=
  agg.any (fun s => bls.verify s msg domain pk)

/-! ## Concrete instances (used to evaluate the theorems on closed inputs)

The aggregator instances realize the spec §8 scenario: a committee for
`AttestationData{slot: 10, shard: 2}`, validator 0 at position 1 and
validator 1 at position 3.  The BLS stub accepts a signature exactly when it
equals the public key, so distinct validators stay distinguishable. -/

def blsW : BlsApi := ⟨fun s _ _ pk => s == pk⟩

def dataW : AttestationData := { slot := 10, shard := 2, rest := 0 }

def stateW : BeaconState :=
  { attestation_duties := fun i =>
      if i = 0 then Except.ok (some (10, 2, 1))
      else if i = 1 then Except.ok (some (10, 2, 3))
      else if i = 2 then Except.error BeaconStateError.EpochCacheUninitialized
      else Except.ok none
    validator_registry := [⟨100⟩, ⟨101⟩]
    current_epoch := 0
    fork_get_domain := fun _ _ => 7
    latest_attestations := [] }

def faW : FreeAttestation := { validator_index := 0, data := dataW, signature := 100 }

def faW2 : FreeAttestation := { validator_index := 1, data := dataW, signature := 101 }

def specW : ChainSpec := { domain_attestation := 5 }

def pkCacheW : Nat → Option PublicKey := fun i => if i = 7 then some 70 else none

/-- A chain whose checks all pass for `sbsW` except that the referenced block
is unknown: finalized slot `1 * 8 = 8`, proposer 7 in the cache, pubkey 70,
signatures accepted, availability cache accepting, no known block. -/
def chainW : BlobChain :=
  { slot_clock_now_with_future_tolerance := some 100
    finalized_checkpoint_epoch := 1
    slots_per_epoch := 8
    beacon_proposer_cache_get_slot := fun _ _ => some (7, 0)
    head_state_get_beacon_proposer_index := fun _ => Except.ok 7
    head_state_fork := 0
    validator_pubkey_cache := some pkCacheW
    genesis_validators_root := 0
    sidecar_verify_signature := fun _ _ _ _ => true
    data_availability_checker := some (fun _ => Except.ok true)
    fork_choice_get_block := fun _ => none
    early_attester_cache_get_proto_block := fun _ => none
    kzg := none }

/-- `chainW` with the data availability checker uninitialized. -/
def chainW10 : BlobChain := { chainW with data_availability_checker := none }

def kzgW : Kzg := { verify_blob_kzg_proof_batch := fun _ _ _ => Except.ok true }

/-- `chainW` with a loaded trusted setup. -/
def chainW9 : BlobChain := { chainW with kzg := some kzgW }

def sbsW : SignedBlobSidecar :=
  { message := { slot := 9, index := 2, block_root := 42, block_parent_root := 3,
                 proposer_index := 7, kzg_commitment := 0, kzg_proof := 0,
                 blob := 0 }
    signature := 0 }

/-- The spec §8 blob scenario: index 2, slot equal to the finalized slot. -/
def sbsW5 : SignedBlobSidecar :=
  { message := { slot := 8, index := 2, block_root := 42, block_parent_root := 3,
                 proposer_index := 7, kzg_commitment := 0, kzg_proof := 0,
                 blob := 0 }
    signature := 0 }

/-! ## Helper lemmas on bitfields and the store -/

theorem Bitfield.get_set (b : Bitfield) (i j : Nat) (v : Bool) :
    (b.set i v).get j =
      if j = i then some v
      else if j < b.length then b.get j
      else if j < i + 1 then some false
      else none := by
  unfold Bitfield.set Bitfield.get
  rw [List.get?_eq_getElem?]
  by_cases hji : j = i
  · subst hji
    rw [List.getElem?_set_self (by simp; omega), if_pos rfl]
  · rw [List.getElem?_set_ne (fun h => hji h.symm), List.getElem?_append, if_neg hji]
    by_cases hjb : j < b.length
    · rw [if_pos hjb, if_pos hjb, List.get?_eq_getElem?]
    · rw [if_neg hjb, if_neg hjb, List.getElem?_replicate]
      by_cases hj1 : j < i + 1
      · rw [if_pos (by omega), if_pos hj1]
      · rw [if_neg (by omega), if_neg hj1]

theorem Bitfield.get_new_set_true (i j : Nat) :
    (Bitfield.new.set i true).get j =
      if j = i then some true
      else if j < i + 1 then some false
      else none := by
  rw [Bitfield.get_set]
  simp [Bitfield.new]

theorem Bitfield.get_new_set_true_iff (i j : Nat) :
    (Bitfield.new.set i true).get j = some true ↔ j = i := by
  rw [Bitfield.get_new_set_true]
  by_cases hji : j = i
  · simp [hji]
  · simp only [if_neg hji]
    split <;> simp [hji]

theorem Bitfield.getD_new_set_true_self (i : Nat) :
    ((Bitfield.new.set i true).get i).getD false = true := by
  rw [Bitfield.get_new_set_true, if_pos rfl]
  rfl

theorem Bitfield.getD_new_set_true_other {i j : Nat} (h : j ≠ i) :
    ((Bitfield.new.set i true).get j).getD false = false := by
  rw [Bitfield.get_new_set_true, if_neg h]
  split <;> rfl

theorem Bitfield.length_set (b : Bitfield) (i : Nat) (v : Bool) :
    (b.set i v).length = max b.length (i + 1) := by
  unfold Bitfield.set
  simp
  omega

theorem Bitfield.get_new_set_two (p q j : Nat) :
    ((Bitfield.new.set p true).set q true).get j =
      if j = p ∨ j = q then some true
      else if j < max p q + 1 then some false
      else none := by
  rw [Bitfield.get_set, Bitfield.get_new_set_true, Bitfield.length_set]
  simp only [Bitfield.new, List.length_nil, Nat.zero_max]
  by_cases hq : j = q
  · rw [if_pos hq, if_pos (show j = p ∨ j = q from Or.inr hq)]
  · rw [if_neg hq]
    by_cases hp : j = p
    · rw [if_pos (show j < p + 1 by omega), if_pos hp,
        if_pos (show j = p ∨ j = q from Or.inl hp)]
    · rw [if_neg (show ¬ (j = p ∨ j = q) from fun hc => hc.elim hp hq)]
      by_cases h1 : j < p + 1
      · rw [if_pos h1, if_neg hp, if_pos h1, if_pos (show j < max p q + 1 by omega)]
      · rw [if_neg h1]
        by_cases h2 : j < q + 1
        · rw [if_pos h2, if_pos (show j < max p q + 1 by omega)]
        · rw [if_neg h2, if_neg (show ¬ j < max p q + 1 by omega)]

theorem Bitfield.new_set_set_comm (p q : Nat) :
    (Bitfield.new.set p true).set q true = (Bitfield.new.set q true).set p true := by
  apply List.ext_get?
  intro j
  show ((Bitfield.new.set p true).set q true).get j =
    ((Bitfield.new.set q true).set p true).get j
  rw [Bitfield.get_new_set_two, Bitfield.get_new_set_two, Nat.max_comm q p]
  by_cases hj : j = p ∨ j = q
  · rw [if_pos hj, if_pos (show j = q ∨ j = p from hj.symm)]
  · rw [if_neg hj, if_neg (show ¬ (j = q ∨ j = p) from fun hc => hj hc.symm)]

theorem Store.get_insert_self (s : Store) (k : SignableMessage) (a : Attestation) :
    (s.insert k a).get k = some a := by
  induction s with
  | nil => simp [Store.insert, Store.get]
  | cons hd tl ih =>
    obtain ⟨k', a'⟩ := hd
    by_cases hk : k' = k
    · simp [Store.insert, hk, Store.get]
    · simpa [Store.insert, hk, Store.get] using ih

/-- When duty resolution, the slot/shard match and the signature check all
succeed, `process_free_attestation` reduces to the store-update step. -/
theorem process_free_attestation_success_path
    (bls : BlsApi) (store : Store) (state : BeaconState) (fa : FreeAttestation)
    (spec : ChainSpec) {slot shard ci : Nat} {vrec : Validator}
    (hduty : state.attestation_duties fa.validator_index =
      Except.ok (some (slot, shard, ci)))
    (hslot : fa.data.slot = slot)
    (hshard : fa.data.shard = shard)
    (hreg : state.validator_registry.get? fa.validator_index = some vrec)
    (hsig : bls.verify fa.signature (fa.data.signable_message PHASE_0_CUSTODY_BIT)
      (state.fork_get_domain state.current_epoch spec.domain_attestation)
      vrec.pubkey = true) :
    process_free_attestation bls store state fa spec =
      match store.get (fa.data.signable_message PHASE_0_CUSTODY_BIT) with
      | some existing =>
        match aggregate_attestation existing fa.signature ci with
        | some updated => (.ok ⟨true, .Aggregated⟩,
            store.insert (fa.data.signable_message PHASE_0_CUSTODY_BIT) updated)
        | none => (.ok ⟨true, .AggregationNotRequired⟩, store)
      | none =>
        (.ok ⟨true, .NewAttestationCreated⟩,
          store.insert (fa.data.signable_message PHASE_0_CUSTODY_BIT)
            { data := fa.data
              aggregation_bitfield := Bitfield.new.set ci true
              custody_bitfield := Bitfield.new
              aggregate_signature := AggregateSignature.new.add fa.signature }) := by
  unfold process_free_attestation
  rw [hduty]
  simp only [hslot, hshard, hreg, hsig, ne_eq, not_true_eq_false, if_false,
    Bool.not_true, ite_self]

/-- **C1**: for every successful validation in `process_free_attestation`,
the store update follows exactly one of three cases: no entry under the
signable message → a new `Attestation` is inserted whose aggregation
bitfield has exactly one bit set, at `position_in_committee`, with outcome
`NewAttestationCreated`; an entry exists with that bit unset → the stored
entry is replaced by one with the bit additionally set and the signature
folded into the aggregate, with outcome `Aggregated`; the bit is already
set → the store is unchanged and the outcome is `AggregationNotRequired`. -/
theorem process_free_attestation_store_update
    (bls : BlsApi) (store : Store) (state : BeaconState) (fa : FreeAttestation)
    (spec : ChainSpec) (slot shard ci : Nat) (vrec : Validator)
    (hduty : state.attestation_duties fa.validator_index =
      Except.ok (some (slot, shard, ci)))
    (hslot : fa.data.slot = slot)
    (hshard : fa.data.shard = shard)
    (hreg : state.validator_registry.get? fa.validator_index = some vrec)
    (hsig : bls.verify fa.signature (fa.data.signable_message PHASE_0_CUSTODY_BIT)
      (state.fork_get_domain state.current_epoch spec.domain_attestation)
      vrec.pubkey = true) :
    (store.get (fa.data.signable_message PHASE_0_CUSTODY_BIT) = none →
      process_free_attestation bls store state fa spec =
        (.ok ⟨true, .NewAttestationCreated⟩,
          store.insert (fa.data.signable_message PHASE_0_CUSTODY_BIT)
            { data := fa.data
              aggregation_bitfield := Bitfield.new.set ci true
              custody_bitfield := Bitfield.new
              aggregate_signature := AggregateSignature.new.add fa.signature }) ∧
      ∀ j, (Bitfield.new.set ci true).get j = some true ↔ j = ci) ∧
    (∀ ex, store.get (fa.data.signable_message PHASE_0_CUSTODY_BIT) = some ex →
      (ex.aggregation_bitfield.get ci).getD false = false →
      process_free_attestation bls store state fa spec =
        (.ok ⟨true, .Aggregated⟩,
          store.insert (fa.data.signable_message PHASE_0_CUSTODY_BIT)
            { ex with
              aggregation_bitfield := ex.aggregation_bitfield.set ci true
              aggregate_signature := ex.aggregate_signature.add fa.signature })) ∧
    (∀ ex, store.get (fa.data.signable_message PHASE_0_CUSTODY_BIT) = some ex →
      (ex.aggregation_bitfield.get ci).getD false = true →
      process_free_attestation bls store state fa spec =
        (.ok ⟨true, .AggregationNotRequired⟩, store)) := by
  refine ⟨fun hnone => ⟨?_, fun j => Bitfield.get_new_set_true_iff ci j⟩,
    fun ex hex hbit => ?_, fun ex hex hbit => ?_⟩
  · rw [process_free_attestation_success_path bls store state fa spec hduty hslot
      hshard hreg hsig, hnone]
  · rw [process_free_attestation_success_path bls store state fa spec hduty hslot
      hshard hreg hsig, hex]
    simp [aggregate_attestation, hbit]
  · rw [process_free_attestation_success_path bls store state fa spec hduty hslot
      hshard hreg hsig, hex]
    simp [aggregate_attestation, hbit]

/-- **C2**: a `FreeAttestation` that validates against an initially empty
store key yields `NewAttestationCreated` on the first submission and
`AggregationNotRequired` on the second, and the store — in particular the
stored aggregate signature and aggregation bitfield for that key — is
identical after the first and after the second call. -/
theorem process_free_attestation_idempotent
    (bls : BlsApi) (store : Store) (state : BeaconState) (fa : FreeAttestation)
    (spec : ChainSpec) (slot shard ci : Nat) (vrec : Validator)
    (hduty : state.attestation_duties fa.validator_index =
      Except.ok (some (slot, shard, ci)))
    (hslot : fa.data.slot = slot)
    (hshard : fa.data.shard = shard)
    (hreg : state.validator_registry.get? fa.validator_index = some vrec)
    (hsig : bls.verify fa.signature (fa.data.signable_message PHASE_0_CUSTODY_BIT)
      (state.fork_get_domain state.current_epoch spec.domain_attestation)
      vrec.pubkey = true)
    (hnone : store.get (fa.data.signable_message PHASE_0_CUSTODY_BIT) = none) :
    ∃ att : Attestation,
      process_free_attestation bls store state fa spec =
        (.ok ⟨true, .NewAttestationCreated⟩,
          store.insert (fa.data.signable_message PHASE_0_CUSTODY_BIT) att) ∧
      process_free_attestation bls
          (store.insert (fa.data.signable_message PHASE_0_CUSTODY_BIT) att)
          state fa spec =
        (.ok ⟨true, .AggregationNotRequired⟩,
          store.insert (fa.data.signable_message PHASE_0_CUSTODY_BIT) att) ∧
      (store.insert (fa.data.signable_message PHASE_0_CUSTODY_BIT) att).get
          (fa.data.signable_message PHASE_0_CUSTODY_BIT) = some att := by
  refine ⟨{ data := fa.data
            aggregation_bitfield := Bitfield.new.set ci true
            custody_bitfield := Bitfield.new
            aggregate_signature := AggregateSignature.new.add fa.signature },
    ?_, ?_, Store.get_insert_self _ _ _⟩
  · rw [process_free_attestation_success_path bls store state fa spec hduty hslot
      hshard hreg hsig, hnone]
  · rw [process_free_attestation_success_path bls _ state fa spec hduty hslot
      hshard hreg hsig, Store.get_insert_self]
    simp [aggregate_attestation, Bitfield.getD_new_set_true_self]

/-- **C3**: two `FreeAttestation`s from distinct validators at distinct
committee positions with equal `AttestationData`, both validating against a
store with no entry under their shared signable-message key, can be
processed in either order: both orders leave the store with the same final
aggregation bitfield for that key, and with an aggregate signature that
independently verifies against both validators' public keys (aggregate
verification modelled from the spec, `AggregateSignature.verifies_against`). -/
theorem process_free_attestation_comm
    (bls : BlsApi) (store : Store) (state : BeaconState)
    (fa1 fa2 : FreeAttestation) (spec : ChainSpec)
    (slot shard p1 p2 : Nat) (v1 v2 : Validator)
    (hvi : fa1.validator_index ≠ fa2.validator_index)
    (hpos : p1 ≠ p2)
    (hdata : fa1.data = fa2.data)
    (hd1 : state.attestation_duties fa1.validator_index =
      Except.ok (some (slot, shard, p1)))
    (hd2 : state.attestation_duties fa2.validator_index =
      Except.ok (some (slot, shard, p2)))
    (hslot : fa1.data.slot = slot)
    (hshard : fa1.data.shard = shard)
    (hr1 : state.validator_registry.get? fa1.validator_index = some v1)
    (hr2 : state.validator_registry.get? fa2.validator_index = some v2)
    (hs1 : bls.verify fa1.signature (fa1.data.signable_message PHASE_0_CUSTODY_BIT)
      (state.fork_get_domain state.current_epoch spec.domain_attestation)
      v1.pubkey = true)
    (hs2 : bls.verify fa2.signature (fa2.data.signable_message PHASE_0_CUSTODY_BIT)
      (state.fork_get_domain state.current_epoch spec.domain_attestation)
      v2.pubkey = true)
    (hnone : store.get (fa1.data.signable_message PHASE_0_CUSTODY_BIT) = none) :
    ∃ a12 a21 : Attestation,
      ((process_free_attestation bls
          (process_free_attestation bls store state fa1 spec).2
          state fa2 spec).2).get
        (fa1.data.signable_message PHASE_0_CUSTODY_BIT) = some a12 ∧
      ((process_free_attestation bls
          (process_free_attestation bls store state fa2 spec).2
          state fa1 spec).2).get
        (fa1.data.signable_message PHASE_0_CUSTODY_BIT) = some a21 ∧
      a12.aggregation_bitfield = a21.aggregation_bitfield ∧
      a12.aggregate_signature.verifies_against bls
        (fa1.data.signable_message PHASE_0_CUSTODY_BIT)
        (state.fork_get_domain state.current_epoch spec.domain_attestation)
        v1.pubkey = true ∧
      a12.aggregate_signature.verifies_against bls
        (fa1.data.signable_message PHASE_0_CUSTODY_BIT)
        (state.fork_get_domain state.current_epoch spec.domain_attestation)
        v2.pubkey = true ∧
      a21.aggregate_signature.verifies_against bls
        (fa1.data.signable_message PHASE_0_CUSTODY_BIT)
        (state.fork_get_domain state.current_epoch spec.domain_attestation)
        v1.pubkey = true ∧
      a21.aggregate_signature.verifies_against bls
        (fa1.data.signable_message PHASE_0_CUSTODY_BIT)
        (state.fork_get_domain state.current_epoch spec.domain_attestation)
        v2.pubkey = true := by
  have key_eq : fa2.data.signable_message PHASE_0_CUSTODY_BIT =
      fa1.data.signable_message PHASE_0_CUSTODY_BIT := by rw [hdata]
  have hslot2 : fa2.data.slot = slot := by rw [← hdata]; exact hslot
  have hshard2 : fa2.data.shard = shard := by rw [← hdata]; exact hshard
  have hs2k : bls.verify fa2.signature
      (fa1.data.signable_message PHASE_0_CUSTODY_BIT)
      (state.fork_get_domain state.current_epoch spec.domain_attestation)
      v2.pubkey = true := by rw [← key_eq]; exact hs2
  have hnone2 : store.get (fa2.data.signable_message PHASE_0_CUSTODY_BIT) = none := by
    rw [key_eq]; exact hnone
  refine ⟨{ data := fa1.data
            aggregation_bitfield := (Bitfield.new.set p1 true).set p2 true
            custody_bitfield := Bitfield.new
            aggregate_signature :=
              (AggregateSignature.new.add fa1.signature).add fa2.signature },
    { data := fa2.data
      aggregation_bitfield := (Bitfield.new.set p2 true).set p1 true
      custody_bitfield := Bitfield.new
      aggregate_signature :=
        (AggregateSignature.new.add fa2.signature).add fa1.signature },
    ?_, ?_, Bitfield.new_set_set_comm p1 p2, ?_, ?_, ?_, ?_⟩
  · have h1 : process_free_attestation bls store state fa1 spec =
        (.ok ⟨true, .NewAttestationCreated⟩,
          store.insert (fa1.data.signable_message PHASE_0_CUSTODY_BIT)
            { data := fa1.data
              aggregation_bitfield := Bitfield.new.set p1 true
              custody_bitfield := Bitfield.new
              aggregate_signature := AggregateSignature.new.add fa1.signature }) := by
      rw [process_free_attestation_success_path bls store state fa1 spec hd1 hslot
        hshard hr1 hs1, hnone]
    rw [h1]
    rw [process_free_attestation_success_path bls _ state fa2 spec hd2 hslot2
      hshard2 hr2 hs2, key_eq, Store.get_insert_self]
    simp only [aggregate_attestation, Bitfield.getD_new_set_true_other hpos.symm,
      Bool.false_eq_true, if_false]
    exact Store.get_insert_self _ _ _
  · have h2 : process_free_attestation bls store state fa2 spec =
        (.ok ⟨true, .NewAttestationCreated⟩,
          store.insert (fa2.data.signable_message PHASE_0_CUSTODY_BIT)
            { data := fa2.data
              aggregation_bitfield := Bitfield.new.set p2 true
              custody_bitfield := Bitfield.new
              aggregate_signature := AggregateSignature.new.add fa2.signature }) := by
      rw [process_free_attestation_success_path bls store state fa2 spec hd2 hslot2
        hshard2 hr2 hs2, hnone2]
    rw [h2]
    rw [process_free_attestation_success_path bls _ state fa1 spec hd1 hslot
      hshard hr1 hs1, ← key_eq, Store.get_insert_self]
    simp only [aggregate_attestation, Bitfield.getD_new_set_true_other hpos,
      Bool.false_eq_true, if_false]
    exact Store.get_insert_self _ _ _
  · simp [AggregateSignature.verifies_against, AggregateSignature.add,
      AggregateSignature.new, hs1]
  · simp [AggregateSignature.verifies_against, AggregateSignature.add,
      AggregateSignature.new, hs2k]
  · simp [AggregateSignature.verifies_against, AggregateSignature.add,
      AggregateSignature.new, hs1]
  · simp [AggregateSignature.verifies_against, AggregateSignature.add,
      AggregateSignature.new, hs2k]

/-- **C6**: every validation failure of `process_free_attestation` on
adversarial or mismatched input (epoch out of range → `TooOld`, committee
out of range → `BadShard`, unknown validator index → `BadValidatorIndex`,
slot mismatch → `BadSlot`, shard mismatch → `BadShard`, signature failure →
`BadSignature`) is returned as an invalid, non-fatal outcome and leaves the
store unchanged; an uninitialized committee cache instead causes a fatal
panic, not a catchable error. -/
theorem process_free_attestation_error_handling
    (bls : BlsApi) (store : Store) (state : BeaconState) (fa : FreeAttestation)
    (spec : ChainSpec) :
    (state.attestation_duties fa.validator_index =
        Except.error .EpochCacheUninitialized →
      process_free_attestation bls store state fa spec = (.panicked, store)) ∧
    (state.attestation_duties fa.validator_index = Except.error .EpochOutOfBounds →
      process_free_attestation bls store state fa spec =
        (.ok ⟨false, .TooOld⟩, store)) ∧
    (state.attestation_duties fa.validator_index = Except.error .ShardOutOfBounds →
      process_free_attestation bls store state fa spec =
        (.ok ⟨false, .BadShard⟩, store)) ∧
    (state.attestation_duties fa.validator_index = Except.ok none →
      process_free_attestation bls store state fa spec =
        (.ok ⟨false, .BadValidatorIndex⟩, store)) ∧
    (∀ slot shard ci,
      state.attestation_duties fa.validator_index =
        Except.ok (some (slot, shard, ci)) →
      fa.data.slot ≠ slot →
      process_free_attestation bls store state fa spec =
        (.ok ⟨false, .BadSlot⟩, store)) ∧
    (∀ slot shard ci,
      state.attestation_duties fa.validator_index =
        Except.ok (some (slot, shard, ci)) →
      fa.data.slot = slot → fa.data.shard ≠ shard →
      process_free_attestation bls store state fa spec =
        (.ok ⟨false, .BadShard⟩, store)) ∧
    (∀ slot shard ci,
      state.attestation_duties fa.validator_index =
        Except.ok (some (slot, shard, ci)) →
      fa.data.slot = slot → fa.data.shard = shard →
      state.validator_registry.get? fa.validator_index = none →
      process_free_attestation bls store state fa spec =
        (.ok ⟨false, .BadValidatorIndex⟩, store)) ∧
    (∀ slot shard ci vrec,
      state.attestation_duties fa.validator_index =
        Except.ok (some (slot, shard, ci)) →
      fa.data.slot = slot → fa.data.shard = shard →
      state.validator_registry.get? fa.validator_index = some vrec →
      bls.verify fa.signature (fa.data.signable_message PHASE_0_CUSTODY_BIT)
        (state.fork_get_domain state.current_epoch spec.domain_attestation)
        vrec.pubkey = false →
      process_free_attestation bls store state fa spec =
        (.ok ⟨false, .BadSignature⟩, store)) ∧
    (∀ o s2, process_free_attestation bls store state fa spec = (.ok o, s2) →
      o.valid = false → s2 = store) := by
  refine ⟨fun h => ?_, fun h => ?_, fun h => ?_, fun h => ?_,
    fun slot shard ci hd hne => ?_, fun slot shard ci hd heq hne => ?_,
    fun slot shard ci hd h1 h2 hreg => ?_,
    fun slot shard ci vrec hd h1 h2 hreg hsig => ?_,
    fun o s2 h hvalid => ?_⟩
  · simp only [process_free_attestation, h]
  · simp only [process_free_attestation, h]
  · simp only [process_free_attestation, h]
  · simp only [process_free_attestation, h]
  · simp only [process_free_attestation, hd]
    rw [if_pos hne]
  · simp only [process_free_attestation, hd]
    rw [if_neg (show ¬ fa.data.slot ≠ slot from fun hc => hc heq), if_pos hne]
  · simp only [process_free_attestation, hd, hreg]
    rw [if_neg (show ¬ fa.data.slot ≠ slot from fun hc => hc h1),
      if_neg (show ¬ fa.data.shard ≠ shard from fun hc => hc h2)]
  · simp only [process_free_attestation, hd, hreg, hsig]
    rw [if_neg (show ¬ fa.data.slot ≠ slot from fun hc => hc h1),
      if_neg (show ¬ fa.data.shard ≠ shard from fun hc => hc h2)]
    simp
  · unfold process_free_attestation at h
    repeat' split at h
    all_goals try simp_all
    all_goals repeat' split at h
    all_goals try simp_all
    all_goals (rw [← h.1] at hvalid; simp at hvalid)

/-- **C7**: `get_attestations_for_state` returns exactly those stored
attestations that pass stateless validity against the given state and whose
`AttestationData` differs from the data of every attestation in the state's
latest-attestations set (the call takes the store immutably and returns
clones, so it cannot mutate the store). -/
theorem get_attestations_for_state_mem
    (vaws : BeaconState → Attestation → ChainSpec → Bool)
    (store : Store) (state : BeaconState) (spec : ChainSpec) :
    ∀ a : Attestation,
      a ∈ get_attestations_for_state vaws store state spec ↔
        (a ∈ store.map Prod.snd ∧ vaws state a spec = true ∧
          ∀ b ∈ state.latest_attestations, b.data ≠ a.data) := by
  intro a
  simp only [get_attestations_for_state, List.mem_filterMap]
  constructor
  · rintro ⟨x, hx, hfx⟩
    by_cases hc : vaws state x spec ∧
        ¬ (state.latest_attestations.map (fun att => att.data)).contains x.data
    · rw [if_pos hc] at hfx
      obtain rfl : x = a := Option.some.inj hfx
      exact ⟨hx, hc.1, fun b hb hbd =>
        hc.2 (List.elem_iff.mpr (List.mem_map.mpr ⟨b, hb, hbd⟩))⟩
    · rw [if_neg hc] at hfx
      exact absurd hfx (by simp)
  · rintro ⟨ha, hv, hd⟩
    refine ⟨a, ha, ?_⟩
    have hnc : ¬ ((state.latest_attestations.map
        (fun att => att.data)).contains a.data = true) := by
      intro hc
      obtain ⟨b, hb, hbd⟩ := List.mem_map.mp (List.elem_iff.mp hc)
      exact hd b hb hbd
    rw [if_pos (And.intro hv hnc)]

/-- **C5**: a signed blob sidecar that passes the subnet and future-slot
checks but whose slot is at most the latest finalized slot (equality
included) is rejected with `PastFinalizedSlot`, and the availability cache
is never invoked (the instrumentation flag is `false`). -/
theorem validate_blob_sidecar_past_finalized_slot
    (chain : BlobChain) (sbs : SignedBlobSidecar) (subnet lps : Nat)
    (hsub : sbs.message.index = subnet)
    (hnow : chain.slot_clock_now_with_future_tolerance = some lps)
    (hfut : sbs.message.slot ≤ lps)
    (hfin : sbs.message.slot ≤
      Epoch.start_slot chain.finalized_checkpoint_epoch chain.slots_per_epoch) :
    validate_blob_sidecar_for_gossip chain sbs subnet =
      (.error (.PastFinalizedSlot sbs.message.slot
        (Epoch.start_slot chain.finalized_checkpoint_epoch chain.slots_per_epoch)),
        false) := by
  have h0 : ¬ sbs.message.index ≠ subnet := fun hc => hc hsub
  have h1 : ¬ sbs.message.slot > lps := not_lt.mpr hfut
  simp [validate_blob_sidecar_for_gossip, h0, hnow, h1, hfin]

/-- **C10**: when a signed blob sidecar passes the subnet, timing, proposer
and signature checks but the chain's data availability checker is `None`,
`validate_blob_sidecar_for_gossip` panics (the `unwrap` on
`chain.data_availability_checker`, modelled by the `panicked` result) instead
of returning a recoverable `BlobError`, and the cache is never invoked. -/
theorem validate_blob_sidecar_panics_without_da_checker
    (chain : BlobChain) (sbs : SignedBlobSidecar) (subnet lps fork : Nat)
    (cache : Nat → Option PublicKey) (pk : PublicKey)
    (hsub : sbs.message.index = subnet)
    (hnow : chain.slot_clock_now_with_future_tolerance = some lps)
    (hfut : sbs.message.slot ≤ lps)
    (hfin : Epoch.start_slot chain.finalized_checkpoint_epoch chain.slots_per_epoch <
      sbs.message.slot)
    (hprop : chain.beacon_proposer_cache_get_slot sbs.message.block_parent_root
      sbs.message.slot = some (sbs.message.proposer_index, fork))
    (hcache : chain.validator_pubkey_cache = some cache)
    (hpk : cache sbs.message.proposer_index = some pk)
    (hsig : chain.sidecar_verify_signature sbs pk fork
      chain.genesis_validators_root = true)
    (hda : chain.data_availability_checker = none) :
    validate_blob_sidecar_for_gossip chain sbs subnet = (.panicked, false) := by
  have h0 : ¬ sbs.message.index ≠ subnet := fun hc => hc hsub
  have h1 : ¬ sbs.message.slot > lps := not_lt.mpr hfut
  have h2 : ¬ sbs.message.slot ≤
      Epoch.start_slot chain.finalized_checkpoint_epoch chain.slots_per_epoch :=
    not_le.mpr hfin
  simp [validate_blob_sidecar_for_gossip, h0, hnow, h1, h2, hprop, hcache, hpk,
    hsig, hda]

/-- **C8** counterexample: the trait impl
`IntoAvailableBlock::into_available_block` for `BlockWrapper` is `todo!()`:
on a wrapper in the `Available` state — where the claim requires the
contained `AvailableBlock` to be yielded without panicking — it panics
(`none` is the panic value of the model). -/
theorem into_available_block_trait_panics :
    IntoAvailableBlock.into_available_block
      (BlockWrapper.Available { block := 0, blobs := VerifiedBlobs.NotRequired })
      0 chainW = none := rfl

/-- **C8** (amended): the inherent `BlockWrapper::into_available_block` is a
total, non-panicking projection — `none` on `AvailabilityPending`, the
contained block on `Available` — while the trait impl
`IntoAvailableBlock::into_available_block` on `BlockWrapper` is
unimplemented (`todo!()`) and panics on every input. -/
theorem into_available_block_projection
    (a : AvailableBlock) (b : SignedBeaconBlock) (root : Hash256)
    (chain : BlobChain) :
    (BlockWrapper.AvailabilityPending b).into_available_block = none ∧
    (BlockWrapper.Available a).into_available_block = some a ∧
    IntoAvailableBlock.into_available_block (BlockWrapper.Available a) root chain =
      none ∧
    IntoAvailableBlock.into_available_block (BlockWrapper.AvailabilityPending b)
      root chain = none :=
  ⟨rfl, rfl, rfl, rfl⟩

/-- **C9** counterexample: on inputs that pass both the
transaction-commitment cross-check and the trusted-setup check — where the
claim requires batch KZG verification and a unit return on success —
`verify_data_availability` panics: the verification step is `todo!()`. -/
theorem verify_data_availability_panics_after_checks :
    verify_data_availability chainW9 [] [] [] 0 0 = .panicked := rfl

/-- **C9** (amended): `verify_data_availability` checks, in order, the
transaction-embedded commitments against `kzg_commitments`
(`TransactionCommitmentMismatch` on mismatch, regardless of the trusted
setup) and then requires a loaded trusted setup
(`TrustedSetupNotInitialized`); the batch KZG verification step
(`InvalidKzgProof` / `KzgError` / unit return) is unimplemented: once both
checks pass the function panics unconditionally via `todo!()`. -/
theorem verify_data_availability_check_order
    (chain : BlobChain) (bs : List BlobSidecar) (kc : List KzgCommitment)
    (txs : List Transaction) (s : Nat) (r : Hash256) :
    (verify_kzg_commitments_against_transactions txs kc = Except.error () →
      verify_data_availability chain bs kc txs s r =
        .error .TransactionCommitmentMismatch) ∧
    (verify_kzg_commitments_against_transactions txs kc = Except.ok () →
      chain.kzg = none →
      verify_data_availability chain bs kc txs s r =
        .error .TrustedSetupNotInitialized) ∧
    (∀ k, verify_kzg_commitments_against_transactions txs kc = Except.ok () →
      chain.kzg = some k →
      verify_data_availability chain bs kc txs s r = .panicked) := by
  refine ⟨fun h => ?_, fun h hk => ?_, fun k h hk => ?_⟩
  · simp only [verify_data_availability, h]
  · simp only [verify_data_availability, h, hk]
  · simp only [verify_data_availability, h, hk]

/-- Inversion helper: once the subnet, clock, future-slot, finalized-slot and
proposer-resolution steps are fixed, an `UnknownHeadBlock` result forces
every remaining check — proposer match, pubkey lookup, signature, and the
availability-cache submission — to have succeeded. -/
theorem validate_blob_sidecar_unknown_head_aux
    (chain : BlobChain) (sbs : SignedBlobSidecar) (subnet : Nat) (root : Hash256)
    (lps pi fork : Nat)
    (h0 : ¬ sbs.message.index ≠ subnet)
    (hnow : chain.slot_clock_now_with_future_tolerance = some lps)
    (h1 : ¬ sbs.message.slot > lps)
    (h2 : ¬ sbs.message.slot ≤
      Epoch.start_slot chain.finalized_checkpoint_epoch chain.slots_per_epoch)
    (hprop : (match chain.beacon_proposer_cache_get_slot
        sbs.message.block_parent_root sbs.message.slot with
      | some proposer => Except.ok proposer
      | none => (chain.head_state_get_beacon_proposer_index sbs.message.slot).map
          (fun index => (index, chain.head_state_fork))) = Except.ok (pi, fork))
    (h : (validate_blob_sidecar_for_gossip chain sbs subnet).1 =
      .error (.UnknownHeadBlock root)) :
    root = sbs.message.block_root ∧
    (validate_blob_sidecar_for_gossip chain sbs subnet).2 = true ∧
    pi = sbs.message.proposer_index ∧
    (∃ cache pk, chain.validator_pubkey_cache = some cache ∧
      cache pi = some pk ∧
      chain.sidecar_verify_signature sbs pk fork
        chain.genesis_validators_root = true) ∧
    (∃ dac all, chain.data_availability_checker = some dac ∧
      dac sbs = Except.ok all) := by
  by_cases h3 : pi ≠ sbs.message.proposer_index
  · have hv : validate_blob_sidecar_for_gossip chain sbs subnet =
        (.error (.ProposerIndexMismatch sbs.message.proposer_index pi), false) := by
      simp [validate_blob_sidecar_for_gossip, h0, hnow, h1, h2, hprop, h3]
    rw [hv] at h
    simp at h
  · rcases hcache : chain.validator_pubkey_cache with _ | cache
    · have hv : validate_blob_sidecar_for_gossip chain sbs subnet =
          (.error (.BeaconChainError .ValidatorPubkeyCacheLockTimeout), false) := by
        simp [validate_blob_sidecar_for_gossip, h0, hnow, h1, h2, hprop, h3, hcache]
      rw [hv] at h
      simp at h
    · rcases hpk : cache pi with _ | pk
      · have hv : validate_blob_sidecar_for_gossip chain sbs subnet =
            (.error (.UnknownValidator pi), false) := by
          simp [validate_blob_sidecar_for_gossip, h0, hnow, h1, h2, hprop, h3,
            hcache, hpk]
        rw [hv] at h
        simp at h
      · by_cases hsig : chain.sidecar_verify_signature sbs pk fork
            chain.genesis_validators_root = true
        · rcases hda : chain.data_availability_checker with _ | dac
          · have hv : validate_blob_sidecar_for_gossip chain sbs subnet =
                (.panicked, false) := by
              simp [validate_blob_sidecar_for_gossip, h0, hnow, h1, h2, hprop, h3,
                hcache, hpk, hsig, hda]
            rw [hv] at h
            simp at h
          · rcases hput : dac sbs with e | all
            · have hv : validate_blob_sidecar_for_gossip chain sbs subnet =
                  (.error (.BlobCacheError e), true) := by
                simp [validate_blob_sidecar_for_gossip, h0, hnow, h1, h2, hprop,
                  h3, hcache, hpk, hsig, hda, hput]
              rw [hv] at h
              simp at h
            · by_cases hblk : ((chain.fork_choice_get_block
                  sbs.message.block_root).orElse
                  (fun _ => chain.early_attester_cache_get_proto_block
                    sbs.message.block_root)).isNone = true
              · have hv : validate_blob_sidecar_for_gossip chain sbs subnet =
                    (.error (.UnknownHeadBlock sbs.message.block_root), true) := by
                  simp [validate_blob_sidecar_for_gossip, h0, hnow, h1, h2, hprop,
                    h3, hcache, hpk, hsig, hda, hput, hblk]
                rw [hv] at h
                simp only [GossipResult.error.injEq, BlobError.UnknownHeadBlock.injEq] at h
                exact ⟨h.symm, by rw [hv], not_not.mp h3,
                  ⟨cache, pk, rfl, hpk, hsig⟩, ⟨dac, all, rfl, hput⟩⟩
              · have hv : validate_blob_sidecar_for_gossip chain sbs subnet =
                    (.ok ⟨all, sbs.message.block_root⟩, true) := by
                  simp [validate_blob_sidecar_for_gossip, h0, hnow, h1, h2, hprop,
                    h3, hcache, hpk, hsig, hda, hput, hblk]
                rw [hv] at h
                simp at h
        · have hv : validate_blob_sidecar_for_gossip chain sbs subnet =
              (.error .ProposerSignatureInvalid, false) := by
            simp [validate_blob_sidecar_for_gossip, h0, hnow, h1, h2, hprop, h3,
              hcache, hpk, hsig]
          rw [hv] at h
          simp at h

/-- **C4**: the gossip checks of `validate_blob_sidecar_for_gossip`
short-circuit in the specified order, subnet first and known-block last: a
sidecar whose index differs from the subnet fails with `InvalidSubnet`
regardless of any other defect, and `UnknownHeadBlock` is returned (with the
cache-submission flag set) only when every preceding check — subnet, clock
read, future slot, finalized slot, proposer resolution and match,
pubkey-cache lock and lookup, proposer signature, and the availability-cache
submission — has succeeded. -/
theorem validate_blob_sidecar_check_order
    (chain : BlobChain) (sbs : SignedBlobSidecar) (subnet : Nat) :
    (sbs.message.index ≠ subnet →
      validate_blob_sidecar_for_gossip chain sbs subnet =
        (.error (.InvalidSubnet sbs.message.index subnet), false)) ∧
    (∀ root, (validate_blob_sidecar_for_gossip chain sbs subnet).1 =
        .error (.UnknownHeadBlock root) →
      root = sbs.message.block_root ∧
      (validate_blob_sidecar_for_gossip chain sbs subnet).2 = true ∧
      sbs.message.index = subnet ∧
      (∃ lps, chain.slot_clock_now_with_future_tolerance = some lps ∧
        sbs.message.slot ≤ lps) ∧
      Epoch.start_slot chain.finalized_checkpoint_epoch chain.slots_per_epoch <
        sbs.message.slot ∧
      (∃ fork,
        (match chain.beacon_proposer_cache_get_slot
            sbs.message.block_parent_root sbs.message.slot with
          | some proposer => Except.ok proposer
          | none => (chain.head_state_get_beacon_proposer_index
              sbs.message.slot).map
              (fun index => (index, chain.head_state_fork))) =
          Except.ok (sbs.message.proposer_index, fork) ∧
        ∃ cache pk, chain.validator_pubkey_cache = some cache ∧
          cache sbs.message.proposer_index = some pk ∧
          chain.sidecar_verify_signature sbs pk fork
            chain.genesis_validators_root = true) ∧
      (∃ dac all, chain.data_availability_checker = some dac ∧
        dac sbs = Except.ok all)) := by
  constructor
  · intro hne
    simp [validate_blob_sidecar_for_gossip, hne]
  · intro root h
    by_cases h0 : sbs.message.index ≠ subnet
    · have hv : validate_blob_sidecar_for_gossip chain sbs subnet =
          (.error (.InvalidSubnet sbs.message.index subnet), false) := by
        simp [validate_blob_sidecar_for_gossip, h0]
      rw [hv] at h
      simp at h
    · rcases hnow : chain.slot_clock_now_with_future_tolerance with _ | lps
      · have hv : validate_blob_sidecar_for_gossip chain sbs subnet =
            (.error (.BeaconChainError .UnableToReadSlot), false) := by
          simp [validate_blob_sidecar_for_gossip, h0, hnow]
        rw [hv] at h
        simp at h
      · by_cases h1 : sbs.message.slot > lps
        · have hv : validate_blob_sidecar_for_gossip chain sbs subnet =
              (.error (.FutureSlot sbs.message.slot lps), false) := by
            simp [validate_blob_sidecar_for_gossip, h0, hnow, h1]
          rw [hv] at h
          simp at h
        · by_cases h2 : sbs.message.slot ≤
              Epoch.start_slot chain.finalized_checkpoint_epoch chain.slots_per_epoch
          · have hv : validate_blob_sidecar_for_gossip chain sbs subnet =
                (.error (.PastFinalizedSlot sbs.message.slot
                  (Epoch.start_slot chain.finalized_checkpoint_epoch
                    chain.slots_per_epoch)), false) := by
              simp [validate_blob_sidecar_for_gossip, h0, hnow, h1, h2]
            rw [hv] at h
            simp at h
          · rcases hprop : (match chain.beacon_proposer_cache_get_slot
                sbs.message.block_parent_root sbs.message.slot with
              | some proposer => Except.ok proposer
              | none => (chain.head_state_get_beacon_proposer_index
                  sbs.message.slot).map
                  (fun index => (index, chain.head_state_fork))) with e | ⟨pi, fork⟩
            · have hv : validate_blob_sidecar_for_gossip chain sbs subnet =
                  (.error (.BeaconChainError (.BeaconStateError e)), false) := by
                simp [validate_blob_sidecar_for_gossip, h0, hnow, h1, h2, hprop]
              rw [hv] at h
              simp at h
            · obtain ⟨hroot, hflag, hpi, ⟨cache, pk, hc, hk, hs⟩, hda⟩ :=
                validate_blob_sidecar_unknown_head_aux chain sbs subnet root lps
                  pi fork h0 hnow h1 h2 hprop h
              exact ⟨hroot, hflag, not_not.mp h0, ⟨lps, rfl, not_lt.mp h1⟩,
                not_le.mp h2, ⟨fork, by rw [hprop, hpi],
                  ⟨cache, pk, hc, hpi ▸ hk, hs⟩⟩, hda⟩

/-! ## Witnesses: the claim theorems evaluated at closed inputs -/

/-- Witness for C1: validator 0 (position 1) against the empty store. -/
theorem process_free_attestation_store_update_witness :
    (process_free_attestation blsW [] stateW faW specW =
      (.ok ⟨true, .NewAttestationCreated⟩,
        Store.insert [] (faW.data.signable_message PHASE_0_CUSTODY_BIT)
          { data := faW.data
            aggregation_bitfield := Bitfield.new.set 1 true
            custody_bitfield := Bitfield.new
            aggregate_signature := AggregateSignature.new.add faW.signature })) ∧
    ∀ j, (Bitfield.new.set 1 true).get j = some true ↔ j = 1 :=
  (process_free_attestation_store_update blsW [] stateW faW specW 10 2 1 ⟨100⟩
    rfl rfl rfl rfl rfl).1 rfl

/-- Witness for C2: validator 0 submitted twice from the empty store. -/
theorem process_free_attestation_idempotent_witness :
    ∃ att : Attestation,
      process_free_attestation blsW [] stateW faW specW =
        (.ok ⟨true, .NewAttestationCreated⟩,
          Store.insert [] (faW.data.signable_message PHASE_0_CUSTODY_BIT) att) ∧
      process_free_attestation blsW
          (Store.insert [] (faW.data.signable_message PHASE_0_CUSTODY_BIT) att)
          stateW faW specW =
        (.ok ⟨true, .AggregationNotRequired⟩,
          Store.insert [] (faW.data.signable_message PHASE_0_CUSTODY_BIT) att) ∧
      (Store.insert [] (faW.data.signable_message PHASE_0_CUSTODY_BIT) att).get
          (faW.data.signable_message PHASE_0_CUSTODY_BIT) = some att :=
  process_free_attestation_idempotent blsW [] stateW faW specW 10 2 1 ⟨100⟩
    rfl rfl rfl rfl rfl rfl

/-- Witness for C3: validators 0 (position 1) and 1 (position 3) with
identical data, processed in both orders from the empty store. -/
theorem process_free_attestation_comm_witness :
    ∃ a12 a21 : Attestation,
      ((process_free_attestation blsW
          (process_free_attestation blsW [] stateW faW specW).2
          stateW faW2 specW).2).get
        (faW.data.signable_message PHASE_0_CUSTODY_BIT) = some a12 ∧
      ((process_free_attestation blsW
          (process_free_attestation blsW [] stateW faW2 specW).2
          stateW faW specW).2).get
        (faW.data.signable_message PHASE_0_CUSTODY_BIT) = some a21 ∧
      a12.aggregation_bitfield = a21.aggregation_bitfield ∧
      a12.aggregate_signature.verifies_against blsW
        (faW.data.signable_message PHASE_0_CUSTODY_BIT)
        (stateW.fork_get_domain stateW.current_epoch specW.domain_attestation)
        (100 : PublicKey) = true ∧
      a12.aggregate_signature.verifies_against blsW
        (faW.data.signable_message PHASE_0_CUSTODY_BIT)
        (stateW.fork_get_domain stateW.current_epoch specW.domain_attestation)
        (101 : PublicKey) = true ∧
      a21.aggregate_signature.verifies_against blsW
        (faW.data.signable_message PHASE_0_CUSTODY_BIT)
        (stateW.fork_get_domain stateW.current_epoch specW.domain_attestation)
        (100 : PublicKey) = true ∧
      a21.aggregate_signature.verifies_against blsW
        (faW.data.signable_message PHASE_0_CUSTODY_BIT)
        (stateW.fork_get_domain stateW.current_epoch specW.domain_attestation)
        (101 : PublicKey) = true :=
  process_free_attestation_comm blsW [] stateW faW faW2 specW 10 2 1 3
    ⟨100⟩ ⟨101⟩ (by decide) (by decide) rfl rfl rfl rfl rfl rfl rfl rfl rfl rfl

/-- Witness for C4: `sbsW` on the wrong subnet fails with `InvalidSubnet`
even though its referenced block is also unknown; on the right subnet the
result is `UnknownHeadBlock` with the cache-submission flag set. -/
theorem validate_blob_sidecar_check_order_witness :
    validate_blob_sidecar_for_gossip chainW sbsW 1 =
      (.error (.InvalidSubnet sbsW.message.index 1), false) ∧
    (validate_blob_sidecar_for_gossip chainW sbsW 2).2 = true ∧
    sbsW.message.index = 2 :=
  ⟨(validate_blob_sidecar_check_order chainW sbsW 1).1 (by decide),
    ((validate_blob_sidecar_check_order chainW sbsW 2).2 42 rfl).2.1,
    ((validate_blob_sidecar_check_order chainW sbsW 2).2 42 rfl).2.2.1⟩

/-- Witness for C5: the spec scenario — index 2 on subnet 2, slot equal to
the finalized slot — yields `PastFinalizedSlot` with the cache untouched. -/
theorem validate_blob_sidecar_past_finalized_slot_witness :
    validate_blob_sidecar_for_gossip chainW sbsW5 2 =
      (.error (.PastFinalizedSlot sbsW5.message.slot
        (Epoch.start_slot chainW.finalized_checkpoint_epoch chainW.slots_per_epoch)),
        false) :=
  validate_blob_sidecar_past_finalized_slot chainW sbsW5 2 100 rfl rfl
    (by decide) (by decide)

/-- Witness for C6: validator 2 hits the uninitialized-cache panic; a slot
mismatch for validator 0 yields the invalid `BadSlot` outcome with the store
untouched. -/
theorem process_free_attestation_error_handling_witness :
    process_free_attestation blsW [] stateW
      { validator_index := 2, data := dataW, signature := 0 } specW =
      (.panicked, []) ∧
    process_free_attestation blsW [] stateW
      { validator_index := 0, data := { slot := 11, shard := 2, rest := 0 },
        signature := 100 } specW =
      (.ok ⟨false, .BadSlot⟩, []) :=
  ⟨(process_free_attestation_error_handling blsW [] stateW
      { validator_index := 2, data := dataW, signature := 0 } specW).1 rfl,
    (process_free_attestation_error_handling blsW [] stateW
      { validator_index := 0, data := { slot := 11, shard := 2, rest := 0 },
        signature := 100 } specW).2.2.2.2.1 10 2 1 rfl (by decide)⟩

/-- Witness for C9 (amended): the three verdicts of
`verify_data_availability` at closed inputs. -/
theorem verify_data_availability_check_order_witness :
    verify_data_availability chainW [] [1] [] 0 0 =
      .error .TransactionCommitmentMismatch ∧
    verify_data_availability chainW [] [] [] 0 0 =
      .error .TrustedSetupNotInitialized ∧
    verify_data_availability chainW9 [] [] [] 0 0 = .panicked :=
  ⟨(verify_data_availability_check_order chainW [] [1] [] 0 0).1 rfl,
    (verify_data_availability_check_order chainW [] [] [] 0 0).2.1 rfl rfl,
    (verify_data_availability_check_order chainW9 [] [] [] 0 0).2.2 kzgW rfl rfl⟩

/-- Witness for C10: `sbsW` passes every check on `chainW10`, whose data
availability checker is `None`, and the validation panics. -/
theorem validate_blob_sidecar_panics_without_da_checker_witness :
    validate_blob_sidecar_for_gossip chainW10 sbsW 2 = (.panicked, false) :=
  validate_blob_sidecar_panics_without_da_checker chainW10 sbsW 2 100 0
    pkCacheW 70 rfl rfl (by decide) (by decide) rfl rfl rfl rfl rfl

end Lighthouse
